import Mathlib

/-!
Verification development for the django-comment-utils repository.

Shallow embedding of the four functional pieces of the library:

* `comment_utils/moderation.py`: the `CommentModerator` option checks
  (`allow`, `comments_open`, ...) and the `Moderator` registry with its
  pre-save / post-save hooks and `register` / `unregister`.
* `comment_utils/management/commands/delete_spam_comments.py`: the
  spam-cleanup command.
* `comment_utils/templatetags/moderated_comments.py`: the template-tag
  token parsers and the count-node renderers.
* `comment_utils/managers.py`: the `most_commented` ranking query.

Modelling conventions:

* Machine state touched through the Django ORM (the comment table, the
  template context, the moderation registry dict) is passed explicitly.
* Python truthiness tests on option values (`if self.enable_field:`,
  `if instance.id or ...`) are modelled exactly: `None`, `""` and `0`
  are falsy.
* Dates and datetimes are modelled as integers; in the moderation code
  (whose comparisons are in whole days via `timedelta.days`) the unit is
  one day, in the spam command (which compares full datetimes) the unit
  is one second, with `timedelta(days=age)` becoming `age * 86400`.
* Exceptions are modelled with `Except` / `Option` error values; an
  exception raised part-way through a mutation leaves the state the
  Python code would leave behind.
-/

/-! ## Moderation registry (`comment_utils/moderation.py`, class `Moderator`) -/

/-- Comment instance as seen by the moderation hooks: its primary key
(`id`, absent or 0 for an unsaved comment), its `is_public` flag, the
`moderation_disallowed` marker attribute (absent = `false`), the model
class of its `content_type` (encoded as a `Nat` key) and the content
object the comment is attached to. -/
structure MComment (Obj : Type) where
  id : Option Nat
  is_public : Bool
  moderation_disallowed : Bool
  model : Nat
  content_object : Obj

/-- Behaviour of one registered moderation class instance: the `allow`
and `moderate` methods, the `email_notification` option (the default
`email` method sends mail exactly when it is set), and the
`comments_open` / `comments_moderated` methods. -/
structure Policy (Obj : Type) where
  allow : MComment Obj → Obj → Bool
  moderate : MComment Obj → Obj → Bool
  email_notification : Bool
  comments_open : Obj → Bool
  comments_moderated : Obj → Bool

/-- The `Moderator._registry` dict, model class ↦ moderation instance. -/
abbrev Registry (Obj : Type) := List (Nat × Policy Obj)

/-- Python truthiness of a comment primary key: `None` and `0` are falsy. -/
def idTruthy : Option Nat → Bool
  | none => false
  | some n => n != 0

/-- Dict access `self._registry[model]` / `model in self._registry`. -/
def regLookup {Obj : Type} (model : Nat) : Registry Obj → Option (Policy Obj)
  | [] => none
  | (k, p) :: rest => if model == k then some p else regLookup model rest

/-- Membership test `model in self._registry`. -/
def isRegistered {Obj : Type} (model : Nat) (reg : Registry Obj) : Bool :=
  (regLookup model reg).isSome

/-- Outcome of the post-save hook for a saved comment: either the
comment is deleted, or it is kept and an email notification is sent
(or not). -/
inductive PostSaveOutcome where
  | deleted : PostSaveOutcome
  | kept : Bool → PostSaveOutcome
deriving DecidableEq

/-- Exceptions raised by `Moderator.register` / `Moderator.unregister`. -/
inductive ModErr where
  | alreadyModerated : ModErr
  | notModerated : ModErr
deriving DecidableEq

namespace Moderator

/-- Moderator.pre_save_moderation: on a new comment (falsy `id`) whose
content model is registered, run `allow` (marking the comment
`moderation_disallowed` when it refuses) and then `moderate` (clearing
`is_public` when it asks for moderation). Anything else is returned
unchanged. -/
def pre_save_moderation {Obj : Type} (reg : Registry Obj) (inst : MComment Obj) :
    MComment Obj :=
  match regLookup inst.model reg with
  | none => inst
  | some policy =>
    if idTruthy inst.id then inst
    else if !(policy.allow inst inst.content_object) then
      { inst with moderation_disallowed := true }
    else if policy.moderate inst inst.content_object then
      { inst with is_public := false }
    else inst

/-- Moderator.post_save_moderation: for a comment on a registered model,
delete it when the pre-save hook marked it disallowed, otherwise call
the moderation class's `email` method (which sends mail exactly when
`email_notification` is set). -/
def post_save_moderation {Obj : Type} (reg : Registry Obj) (inst : MComment Obj) :
    PostSaveOutcome :=
  match regLookup inst.model reg with
  | none => PostSaveOutcome.kept false
  | some policy =>
    if inst.moderation_disallowed then PostSaveOutcome.deleted
    else PostSaveOutcome.kept policy.email_notification

/-- Moderator.register over a list of models: walk the list in order,
raising `AlreadyModerated` at the first model already present; models
seen before the raise stay registered (the dict mutation is not rolled
back). A single-model call is the singleton list. -/
def register {Obj : Type} (reg : Registry Obj) (models : List Nat)
    (mkPolicy : Nat → Policy Obj) : Registry Obj × Option ModErr :=
  match models with
  | [] => (reg, none)
  | m :: rest =>
    if isRegistered m reg then (reg, some ModErr.alreadyModerated)
    else register (reg ++ [(m, mkPolicy m)]) rest mkPolicy

/-- Moderator.unregister over a list of models: walk the list in order,
raising `NotModerated` at the first model not present; models seen
before the raise stay removed. -/
def unregister {Obj : Type} (reg : Registry Obj) (models : List Nat) :
    Registry Obj × Option ModErr :=
  match models with
  | [] => (reg, none)
  | m :: rest =>
    if !(isRegistered m reg) then (reg, some ModErr.notModerated)
    else unregister (reg.filter (fun p => p.1 != m)) rest

/-- Moderator.comments_open: `True` for objects of unregistered models,
otherwise deferred to the registered moderation class. The model class
of `obj` is passed explicitly (Python reads `obj.__class__`). -/
def comments_open {Obj : Type} (reg : Registry Obj) (model : Nat) (obj : Obj) : Bool :=
  match regLookup model reg with
  | none => true
  | some policy => policy.comments_open obj

/-- Moderator.comments_moderated: `False` for objects of unregistered
models, otherwise deferred to the registered moderation class. -/
def comments_moderated {Obj : Type} (reg : Registry Obj) (model : Nat) (obj : Obj) : Bool :=
  match regLookup model reg with
  | none => false
  | some policy => policy.comments_moderated obj

end Moderator

/-! ## CommentModerator option checks (`comment_utils/moderation.py`) -/

/-- Python truthiness of an optional string option: `None` and the
empty string are falsy. -/
def optTruthyStr : Option String → Bool
  | none => false
  | some s => s != ""

/-- Python truthiness of an optional integer option: `None` and `0` are
falsy. -/
def optTruthyInt : Option Int → Bool
  | none => false
  | some n => n != 0

/-- Unwrap an optional field name (only consulted when the option is
truthy, so the default is never observed). -/
def orBlank : Option String → String
  | some s => s
  | none => ""

/-- Content object as seen by the option checks: a boolean field per
name (for `enable_field`) and a date field per name (for
`auto_close_field` / `auto_moderate_field`), dates in whole days. -/
structure ContentObj where
  boolField : String → Bool
  dateField : String → Int

/-- Class attributes of a `CommentModerator` (sub)class. -/
structure ModOptions where
  akismet : Bool
  auto_close_field : Option String
  auto_moderate_field : Option String
  close_after : Option Int
  email_notification : Bool
  enable_field : Option String
  moderate_after : Option Int
  moderate_field : Option String

/-- CommentModerator._get_delta at day granularity: raises `ValueError`
when `now` is earlier than the field value, otherwise the elapsed
number of days. -/
def getDelta (now past : Int) : Except Unit Int :=
  if now < past then Except.error () else Except.ok (now - past)

namespace CommentModerator

/-- CommentModerator.allow: refuse when a truthy `enable_field` names a
field that is false on the content object; refuse when truthy
`auto_close_field` and `close_after` are set and at least `close_after`
days have elapsed since the named date field (propagating the
`ValueError` of `_get_delta` for future dates); otherwise accept. The
`comment` argument is never consulted. -/
def allow {γ : Type} (opts : ModOptions) (now : Int) (_comment : γ) (obj : ContentObj) :
    Except Unit Bool :=
  if optTruthyStr opts.enable_field && !(obj.boolField (orBlank opts.enable_field)) then
    Except.ok false
  else if optTruthyStr opts.auto_close_field && optTruthyInt opts.close_after then
    if now < obj.dateField (orBlank opts.auto_close_field) then Except.error ()
    else if opts.close_after.getD 0 ≤ now - obj.dateField (orBlank opts.auto_close_field) then
      Except.ok false
    else Except.ok true
  else Except.ok true

/-- CommentModerator.comments_open: textually the same checks as
`allow`, without the comment argument. -/
def comments_open (opts : ModOptions) (now : Int) (obj : ContentObj) :
    Except Unit Bool :=
  if optTruthyStr opts.enable_field && !(obj.boolField (orBlank opts.enable_field)) then
    Except.ok false
  else if optTruthyStr opts.auto_close_field && optTruthyInt opts.close_after then
    if now < obj.dateField (orBlank opts.auto_close_field) then Except.error ()
    else if opts.close_after.getD 0 ≤ now - obj.dateField (orBlank opts.auto_close_field) then
      Except.ok false
    else Except.ok true
  else Except.ok true

end CommentModerator

/-- Condition under which, according to the claim's wording, `allow`
and `comments_open` return `false`: `enable_field` names a field that
is false on the object, or `auto_close_field` and `close_after` are
both set (not `None`) and at least `close_after` days have elapsed
since the object's date field. Stated from the specification, to be
compared with the code's behaviour. -/
def specClaimClosed (opts : ModOptions) (now : Int) (obj : ContentObj) : Bool :=
  (match opts.enable_field with
   | some f => !(obj.boolField f)
   | none => false) ||
  (opts.auto_close_field.isSome && opts.close_after.isSome &&
    decide (opts.close_after.getD 0 ≤ now - obj.dateField (orBlank opts.auto_close_field)))

/-! ## Spam cleanup command
(`comment_utils/management/commands/delete_spam_comments.py`) -/

/-- Row of the comment table as seen by the command: primary key,
`is_public` flag and `submit_date` (seconds). -/
structure SpamComment where
  id : Nat
  is_public : Bool
  submit_date : Int
deriving DecidableEq

/-- Filter `is_public__exact=False, submit_date__lt=age_cutoff`, where
`age_cutoff = now - timedelta(days=age)`. -/
def isSpam (now age : Int) (c : SpamComment) : Bool :=
  !c.is_public && decide (c.submit_date < now - age * 86400)

/-- Function delete_spam_comments: count the matching comments, delete
each of them unless `dry_run` is set, and print the count either way.
Returns the resulting comment table and the printed count; `verbosity`
only controls per-comment progress output. -/
def delete_spam_comments (now age : Int) (dry_run : Bool) (verbosity : Nat)
    (store : List SpamComment) : List SpamComment × Nat :=
  let comments_to_delete := store.filter (isSpam now age)
  let deleted_count := comments_to_delete.length
  if dry_run then (store, deleted_count)
  else (store.filter (fun c => !(isSpam now age c)), deleted_count)

/-! ## Template tags (`comment_utils/templatetags/moderated_comments.py`) -/

/-- Python str.split('.') restricted to the dot separator, over the
character list. -/
def splitDotAux : List Char → List Char → List (List Char)
  | [], acc => [acc.reverse]
  | c :: rest, acc =>
    if c == '.' then acc.reverse :: splitDotAux rest []
    else splitDotAux rest (c :: acc)

/-- Python tokens[2].split('.'). -/
def splitOnDot (s : String) : List String :=
  (splitDotAux s.toList []).map String.mk

/-- Python str.isdigit: nonempty and all characters are digits. -/
def isAllDigits (s : String) : Bool :=
  !(s.toList.isEmpty) && s.toList.all Char.isDigit

/-- Database facts the tag parsers consult: whether a
`ContentType.objects.get(app_label, model)` lookup succeeds, whether
`get_model(app_name, model_name)` finds a model, and whether
`content_type.get_object_for_this_type(pk=obj_id)` finds an object. -/
structure TagEnv where
  ctypeExists : String → String → Bool
  modelExists : String → String → Bool
  objectExists : String → String → String → Bool

/-- Kinds of errors the parsers raise. Every one of them is raised as a
Django `TemplateSyntaxError`; `objectDoesNotExist` is the one produced
by catching `ObjectDoesNotExist` for a hard-coded id that matches no
object. -/
inductive TagErr where
  | wrongArgCount : TagErr
  | secondNotFor : TagErr
  | badContentTypeFormat : TagErr
  | invalidContentType : TagErr
  | objectDoesNotExist : TagErr
  | fourthNotAs : TagErr
  | badReversed : TagErr
deriving DecidableEq

/-- Node built by the list-tag parsers (`CommentListNode`); exactly one
of `context_var_name` / `obj_id` is set. `public_only` records the
`is_public__exact=True` extra filter of the public variant. -/
structure CommentListNode where
  package : String
  module : String
  context_var_name : Option String
  obj_id : Option String
  var_name : String
  free : Bool
  ordering : String
  public_only : Bool
deriving DecidableEq

/-- Node built by the count-tag parsers (`CommentCountNode` and its
subclass `PublicCommentCountNode`, which differ only in `render`). -/
structure CommentCountNode where
  package : String
  module : String
  context_var_name : Option String
  obj_id : Option String
  var_name : String
  free : Bool
deriving DecidableEq

/-- DoGetCommentList.__call__: token checks in source order — argument
count (6 or 7), literal `for`, dotted content-type label resolved via
`ContentType.objects.get`, hard-coded id existence, literal `as`,
optional trailing `reversed`. -/
def doGetCommentList (env : TagEnv) (free : Bool) (tokens : List String) :
    Except TagErr CommentListNode :=
  if !(tokens.length == 6 || tokens.length == 7) then Except.error TagErr.wrongArgCount
  else if (tokens.getD 1 "") != "for" then Except.error TagErr.secondNotFor
  else if (splitOnDot (tokens.getD 2 "")).length != 2 then
    Except.error TagErr.badContentTypeFormat
  else if !(env.ctypeExists ((splitOnDot (tokens.getD 2 "")).getD 0 "")
      ((splitOnDot (tokens.getD 2 "")).getD 1 "")) then
    Except.error TagErr.invalidContentType
  else if isAllDigits (tokens.getD 3 "") &&
      !(env.objectExists ((splitOnDot (tokens.getD 2 "")).getD 0 "")
        ((splitOnDot (tokens.getD 2 "")).getD 1 "") (tokens.getD 3 "")) then
    Except.error TagErr.objectDoesNotExist
  else if (tokens.getD 4 "") != "as" then Except.error TagErr.fourthNotAs
  else if tokens.length == 7 && (tokens.getD 6 "") != "reversed" then
    Except.error TagErr.badReversed
  else
    Except.ok
      { package := (splitOnDot (tokens.getD 2 "")).getD 0 ""
        module := (splitOnDot (tokens.getD 2 "")).getD 1 ""
        context_var_name := if isAllDigits (tokens.getD 3 "") then none else some (tokens.getD 3 "")
        obj_id := if isAllDigits (tokens.getD 3 "") then some (tokens.getD 3 "") else none
        var_name := tokens.getD 5 ""
        free := free
        ordering := if tokens.length == 7 then "-" else ""
        public_only := false }

/-- DoPublicCommentList.__call__: same token checks, but the
content-type label is resolved via `get_model` and the node carries the
`is_public__exact=True` extra filter. -/
def doPublicCommentList (env : TagEnv) (free : Bool) (tokens : List String) :
    Except TagErr CommentListNode :=
  if !(tokens.length == 6 || tokens.length == 7) then Except.error TagErr.wrongArgCount
  else if (tokens.getD 1 "") != "for" then Except.error TagErr.secondNotFor
  else if (splitOnDot (tokens.getD 2 "")).length != 2 then
    Except.error TagErr.badContentTypeFormat
  else if !(env.modelExists ((splitOnDot (tokens.getD 2 "")).getD 0 "")
      ((splitOnDot (tokens.getD 2 "")).getD 1 "")) then
    Except.error TagErr.invalidContentType
  else if isAllDigits (tokens.getD 3 "") &&
      !(env.objectExists ((splitOnDot (tokens.getD 2 "")).getD 0 "")
        ((splitOnDot (tokens.getD 2 "")).getD 1 "") (tokens.getD 3 "")) then
    Except.error TagErr.objectDoesNotExist
  else if (tokens.getD 4 "") != "as" then Except.error TagErr.fourthNotAs
  else if tokens.length == 7 && (tokens.getD 6 "") != "reversed" then
    Except.error TagErr.badReversed
  else
    Except.ok
      { package := (splitOnDot (tokens.getD 2 "")).getD 0 ""
        module := (splitOnDot (tokens.getD 2 "")).getD 1 ""
        context_var_name := if isAllDigits (tokens.getD 3 "") then none else some (tokens.getD 3 "")
        obj_id := if isAllDigits (tokens.getD 3 "") then some (tokens.getD 3 "") else none
        var_name := tokens.getD 5 ""
        free := free
        ordering := if tokens.length == 7 then "-" else ""
        public_only := true }

/-- DoPublicCommentCount.__call__: exactly six tokens, literal `for`,
dotted label resolved via `get_model`, hard-coded id existence, literal
`as`. (`DoCommentCount.__call__` performs the same checks.) -/
def doPublicCommentCount (env : TagEnv) (free : Bool) (tokens : List String) :
    Except TagErr CommentCountNode :=
  if !(tokens.length == 6) then Except.error TagErr.wrongArgCount
  else if (tokens.getD 1 "") != "for" then Except.error TagErr.secondNotFor
  else if (splitOnDot (tokens.getD 2 "")).length != 2 then
    Except.error TagErr.badContentTypeFormat
  else if !(env.modelExists ((splitOnDot (tokens.getD 2 "")).getD 0 "")
      ((splitOnDot (tokens.getD 2 "")).getD 1 "")) then
    Except.error TagErr.invalidContentType
  else if isAllDigits (tokens.getD 3 "") &&
      !(env.objectExists ((splitOnDot (tokens.getD 2 "")).getD 0 "")
        ((splitOnDot (tokens.getD 2 "")).getD 1 "") (tokens.getD 3 "")) then
    Except.error TagErr.objectDoesNotExist
  else if (tokens.getD 4 "") != "as" then Except.error TagErr.fourthNotAs
  else
    Except.ok
      { package := (splitOnDot (tokens.getD 2 "")).getD 0 ""
        module := (splitOnDot (tokens.getD 2 "")).getD 1 ""
        context_var_name := if isAllDigits (tokens.getD 3 "") then none else some (tokens.getD 3 "")
        obj_id := if isAllDigits (tokens.getD 3 "") then some (tokens.getD 3 "") else none
        var_name := tokens.getD 5 ""
        free := free }

/-- Row of a comment table as seen by the count nodes. -/
structure TplComment where
  object_id : String
  app_label : String
  model_name : String
  site_id : Nat
  is_public : Bool
deriving DecidableEq

/-- Errors a node's `render` can raise: the framework's
`VariableDoesNotExist` from `Variable.resolve`, and Python's
`UnboundLocalError` for a local read before assignment. -/
inductive RenderErr where
  | variableDoesNotExist : RenderErr
  | unboundLocal : RenderErr
deriving DecidableEq

/-- Count of matching comments,
`filter(object_id__exact=oid, content_type__app_label__exact=package,
content_type__model__exact=module, site__id__exact=SITE_ID [, is_public__exact=True]).count()`. -/
def countComments (table : List TplComment) (oid package module : String)
    (siteId : Nat) (publicOnly : Bool) : Nat :=
  (table.filter (fun c =>
    c.object_id == oid && c.app_label == package && c.model_name == module &&
    c.site_id == siteId && (!publicOnly || c.is_public))).length

/-- CommentCountNode.render: resolve the context variable into
`self.obj_id` when one is set (otherwise keep the parsed hard-coded
id), count all matching comments, store the count under `var_name` and
contribute no output. -/
def commentCountRender (freeTable regTable : List TplComment) (siteId : Nat)
    (node : CommentCountNode) (ctx : List (String × String)) :
    Except RenderErr (List (String × String) × String) :=
  let table := if node.free then freeTable else regTable
  match node.context_var_name with
  | some v =>
    match List.lookup v ctx with
    | none => Except.error RenderErr.variableDoesNotExist
    | some oid =>
      Except.ok ((node.var_name, toString (countComments table oid node.package node.module siteId false)) :: ctx, "")
  | none =>
    Except.ok ((node.var_name, toString (countComments table (orBlank node.obj_id) node.package node.module siteId false)) :: ctx, "")

/-- PublicCommentCountNode.render: the local `object_id` is assigned
only inside the `if self.context_var_name is not None:` branch yet read
unconditionally by the filter call, so a node carrying a hard-coded id
(`context_var_name` absent) raises `UnboundLocalError`; with a context
variable it resolves it, counts matching comments with
`is_public__exact=True`, stores the count under `var_name` and
contributes no output. -/
def publicCommentCountRender (freeTable regTable : List TplComment) (siteId : Nat)
    (node : CommentCountNode) (ctx : List (String × String)) :
    Except RenderErr (List (String × String) × String) :=
  let table := if node.free then freeTable else regTable
  match node.context_var_name with
  | some v =>
    match List.lookup v ctx with
    | none => Except.error RenderErr.variableDoesNotExist
    | some oid =>
      Except.ok ((node.var_name, toString (countComments table oid node.package node.module siteId true)) :: ctx, "")
  | none => Except.error RenderErr.unboundLocal

/-! ## Most-commented query (`comment_utils/managers.py`) -/

/-- Row of the manager's model table: just its primary key. -/
structure RankedObj where
  pk : Nat
deriving DecidableEq

/-- Row of a comment table as seen by the ranking subquery. -/
structure RankComment where
  content_type_id : Nat
  object_id : Nat
  is_public : Bool
deriving DecidableEq

/-- The correlated subquery of `most_commented`: number of comments in
`table` with the model's content type, the object's primary key as
`object_id`, and `is_public` true. -/
def commentCountFor (table : List RankComment) (ctype : Nat) (o : RankedObj) : Nat :=
  (table.filter (fun c =>
    c.content_type_id == ctype && c.object_id == o.pk && c.is_public)).length

/-- CommentedObjectManager.most_commented: annotate each object of the
model with its public-comment count from the free or registered
comment table, order by that count descending, and keep the first
`num`. -/
def most_commented (num : Nat) (free : Bool) (ctype : Nat) (objs : List RankedObj)
    (freeTable regTable : List RankComment) : List RankedObj :=
  let table := if free then freeTable else regTable
  (objs.insertionSort
    (fun a b => commentCountFor table ctype b ≤ commentCountFor table ctype a)).take num

/-! ## Helper lemmas on the moderation registry -/

/-- Appending a fresh entry to the registry extends membership by the
new key. -/
theorem isRegistered_append_single {Obj : Type} (x a : Nat) (p : Policy Obj)
    (reg : Registry Obj) :
    isRegistered x (reg ++ [(a, p)]) = (isRegistered x reg || x == a) := by
  induction reg with
  | nil =>
    simp only [List.nil_append, isRegistered, regLookup]
    cases hx : x == a <;> simp [hx]
  | cons hd tl ih =>
    obtain ⟨k, q⟩ := hd
    cases hxk : x == k <;>
      simp only [List.cons_append, isRegistered, regLookup, hxk] at ih ⊢ <;>
      simp [ih]

/-- Walking `register` never removes a registered model. -/
theorem register_preserves_registered {Obj : Type} {x : Nat} :
    ∀ {models : List Nat} (reg : Registry Obj) (mkPolicy : Nat → Policy Obj),
      isRegistered x reg = true →
      isRegistered x (Moderator.register reg models mkPolicy).1 = true := by
  intro models
  induction models with
  | nil => intro reg mkPolicy h; simpa [Moderator.register] using h
  | cons a rest ih =>
    intro reg mkPolicy h
    cases ha : isRegistered a reg with
    | true => simpa [Moderator.register, ha] using h
    | false =>
      simp only [Moderator.register, ha, Bool.false_eq_true, if_false]
      exact ih _ _ (by rw [isRegistered_append_single]; simp [h])

/-- Registering any list that contains an already-registered model
raises `AlreadyModerated`. -/
theorem register_already_raises {Obj : Type} {m : Nat} :
    ∀ {models : List Nat} (reg : Registry Obj) (mkPolicy : Nat → Policy Obj),
      m ∈ models → isRegistered m reg = true →
      (Moderator.register reg models mkPolicy).2 = some ModErr.alreadyModerated := by
  intro models
  induction models with
  | nil => intro reg mkPolicy h; exact absurd h (List.not_mem_nil m)
  | cons a rest ih =>
    intro reg mkPolicy hmem hreg
    cases ha : isRegistered a reg with
    | true => simp [Moderator.register, ha]
    | false =>
      have hne : m ≠ a := fun he => by rw [he, ha] at hreg; exact Bool.false_ne_true hreg
      have hmem' : m ∈ rest := by
        rcases List.mem_cons.mp hmem with h | h
        · exact absurd h hne
        · exact h
      simp only [Moderator.register, ha, Bool.false_eq_true, if_false]
      exact ih _ _ hmem' (by rw [isRegistered_append_single]; simp [hreg])

/-! ## C1: pre/post-save hooks implement the moderation policy -/

/-- C1. For a new comment (no id) on a model in the registry with a
fresh `moderation_disallowed` marker: when the policy's `allow` refuses
the comment, the pre-save hook leaves `is_public` alone and the
post-save hook deletes the comment; when `allow` accepts and `moderate`
asks for moderation, `is_public` is cleared before saving and the
comment is kept; when both decline, the comment is saved completely
unchanged and kept; in the kept cases the post-save hook sends the
email notification exactly when `email_notification` is enabled. -/
theorem pre_post_save_policy {Obj : Type} (reg : Registry Obj) (inst : MComment Obj)
    (p : Policy Obj) (hid : inst.id = none)
    (hreg : regLookup inst.model reg = some p)
    (hnew : inst.moderation_disallowed = false) :
    (p.allow inst inst.content_object = false →
      (Moderator.pre_save_moderation reg inst).is_public = inst.is_public ∧
      Moderator.post_save_moderation reg (Moderator.pre_save_moderation reg inst) =
        PostSaveOutcome.deleted) ∧
    (p.allow inst inst.content_object = true →
      p.moderate inst inst.content_object = true →
      (Moderator.pre_save_moderation reg inst).is_public = false ∧
      Moderator.post_save_moderation reg (Moderator.pre_save_moderation reg inst) =
        PostSaveOutcome.kept p.email_notification) ∧
    (p.allow inst inst.content_object = true →
      p.moderate inst inst.content_object = false →
      Moderator.pre_save_moderation reg inst = inst ∧
      Moderator.post_save_moderation reg (Moderator.pre_save_moderation reg inst) =
        PostSaveOutcome.kept p.email_notification) := by
  refine ⟨?_, ?_, ?_⟩
  · intro hal
    have h1 : Moderator.pre_save_moderation reg inst =
        { inst with moderation_disallowed := true } := by
      simp [Moderator.pre_save_moderation, hreg, hid, idTruthy, hal]
    rw [h1]
    exact ⟨rfl, by simp [Moderator.post_save_moderation, hreg]⟩
  · intro hal hmod
    have h1 : Moderator.pre_save_moderation reg inst = { inst with is_public := false } := by
      simp [Moderator.pre_save_moderation, hreg, hid, idTruthy, hal, hmod]
    rw [h1]
    exact ⟨rfl, by simp [Moderator.post_save_moderation, hreg, hnew]⟩
  · intro hal hmod
    have h1 : Moderator.pre_save_moderation reg inst = inst := by
      simp [Moderator.pre_save_moderation, hreg, hid, idTruthy, hal, hmod]
    rw [h1]
    exact ⟨rfl, by simp [Moderator.post_save_moderation, hreg, hnew]⟩

/-- Moderation class whose `allow` always refuses (the shape of the
`NoComments` example subclass), used as a concrete policy value. -/
def unitPolicyRefuse : Policy Unit :=
  { allow := fun _ _ => false
    moderate := fun _ _ => false
    email_notification := true
    comments_open := fun _ => true
    comments_moderated := fun _ => false }

/-- Fresh unsaved comment on model 1. -/
def instW : MComment Unit :=
  { id := none
    is_public := true
    moderation_disallowed := false
    model := 1
    content_object := () }

/-- Witness for C1 at a concrete registry, policy and comment. -/
theorem pre_post_save_policy_witness :
    Moderator.post_save_moderation [(1, unitPolicyRefuse)]
      (Moderator.pre_save_moderation [(1, unitPolicyRefuse)] instW) =
      PostSaveOutcome.deleted :=
  ((pre_post_save_policy [(1, unitPolicyRefuse)] instW unitPolicyRefuse rfl rfl rfl).1 rfl).2

/-! ## C4: register / unregister error behaviour -/

/-- C4. Registering a list containing an already-registered model
(including the singleton list) raises `AlreadyModerated`, and
unregistering a model that is not registered raises `NotModerated`. -/
theorem register_unregister_raise {Obj : Type} (reg : Registry Obj)
    (models : List Nat) (m m2 : Nat) (mkPolicy : Nat → Policy Obj)
    (h1 : m ∈ models) (h2 : isRegistered m reg = true)
    (h3 : isRegistered m2 reg = false) :
    (Moderator.register reg models mkPolicy).2 = some ModErr.alreadyModerated ∧
    (Moderator.unregister reg [m2]).2 = some ModErr.notModerated := by
  refine ⟨register_already_raises reg mkPolicy h1 h2, ?_⟩
  simp [Moderator.unregister, h3]

/-- Witness for C4 at a concrete registry. -/
theorem register_unregister_raise_witness :
    (Moderator.register [(1, unitPolicyRefuse)] [1] (fun _ => unitPolicyRefuse)).2 =
      some ModErr.alreadyModerated ∧
    (Moderator.unregister [(1, unitPolicyRefuse)] [2]).2 = some ModErr.notModerated :=
  register_unregister_raise [(1, unitPolicyRefuse)] [1] 1 2 (fun _ => unitPolicyRefuse)
    (List.mem_singleton.mpr rfl) rfl rfl

/-! ## C9: defaults for unregistered models -/

/-- C9. For an object whose model class is not in the registry,
`Moderator.comments_open` returns `true` and
`Moderator.comments_moderated` returns `false`. -/
theorem unregistered_model_defaults {Obj : Type} (reg : Registry Obj)
    (model : Nat) (obj : Obj) (h : isRegistered model reg = false) :
    Moderator.comments_open reg model obj = true ∧
    Moderator.comments_moderated reg model obj = false := by
  have hl : regLookup model reg = none := by
    cases hx : regLookup model reg with
    | none => rfl
    | some p => simp [isRegistered, hx] at h
  exact ⟨by simp [Moderator.comments_open, hl], by simp [Moderator.comments_moderated, hl]⟩

/-- Witness for C9 on the empty registry. -/
theorem unregistered_model_defaults_witness :
    Moderator.comments_open ([] : Registry Unit) 0 () = true ∧
    Moderator.comments_moderated ([] : Registry Unit) 0 () = false :=
  unregistered_model_defaults [] 0 () rfl

/-! ## C10: register is not atomic over a list -/

/-- C10 counterexample. Registry holding model 1; registering the list
`[2, 2, 3, 1]` satisfies the claim's hypothesis (the model at position
3 is registered, the models before it are not), and the call raises
`AlreadyModerated` — but it raises at the duplicated 2, so model 3,
which precedes position 3, is NOT in the registry afterwards,
contradicting the claim's universally quantified conclusion. -/
theorem register_not_atomic_claim_counterexample :
    isRegistered 1 [(1, unitPolicyRefuse)] = true ∧
    isRegistered 2 [(1, unitPolicyRefuse)] = false ∧
    isRegistered 3 [(1, unitPolicyRefuse)] = false ∧
    (Moderator.register [(1, unitPolicyRefuse)] [2, 2, 3, 1]
      (fun _ => unitPolicyRefuse)).2 = some ModErr.alreadyModerated ∧
    isRegistered 3 (Moderator.register [(1, unitPolicyRefuse)] [2, 2, 3, 1]
      (fun _ => unitPolicyRefuse)).1 = false :=
  ⟨rfl, rfl, rfl, rfl, rfl⟩

/-- C10 amended. When the models before the registered one are pairwise
distinct (in addition to being unregistered), `register` raises
`AlreadyModerated` and the models before the raising position remain in
the registry: the mutation is not rolled back. -/
theorem register_not_atomic_amended {Obj : Type} :
    ∀ (pre : List Nat) (reg : Registry Obj) (rest : List Nat) (m : Nat)
      (mkPolicy : Nat → Policy Obj),
      isRegistered m reg = true →
      (∀ x ∈ pre, isRegistered x reg = false) →
      pre.Nodup →
      (Moderator.register reg (pre ++ m :: rest) mkPolicy).2 =
        some ModErr.alreadyModerated ∧
      ∀ x ∈ pre,
        isRegistered x (Moderator.register reg (pre ++ m :: rest) mkPolicy).1 = true := by
  intro pre
  induction pre with
  | nil =>
    intro reg rest m mkPolicy hm hpre hnd
    exact ⟨by simp [Moderator.register, hm], fun x hx => absurd hx (List.not_mem_nil x)⟩
  | cons a pre2 ih =>
    intro reg rest m mkPolicy hm hpre hnd
    have ha : isRegistered a reg = false := hpre a (List.mem_cons_self a pre2)
    have hanotin : a ∉ pre2 := (List.nodup_cons.mp hnd).1
    have hnd2 : pre2.Nodup := (List.nodup_cons.mp hnd).2
    have hstep : Moderator.register reg ((a :: pre2) ++ m :: rest) mkPolicy =
        Moderator.register (reg ++ [(a, mkPolicy a)]) (pre2 ++ m :: rest) mkPolicy := by
      simp [Moderator.register, ha]
    have hm2 : isRegistered m (reg ++ [(a, mkPolicy a)]) = true := by
      rw [isRegistered_append_single]; simp [hm]
    have hpre2 : ∀ x ∈ pre2, isRegistered x (reg ++ [(a, mkPolicy a)]) = false := by
      intro x hx
      have hxa : (x == a) = false := by
        simp only [beq_eq_false_iff_ne]
        exact fun he => hanotin (he ▸ hx)
      rw [isRegistered_append_single]
      simp [hpre x (List.mem_cons_of_mem a hx), hxa]
    obtain ⟨ih1, ih2⟩ := ih (reg ++ [(a, mkPolicy a)]) rest m mkPolicy hm2 hpre2 hnd2
    rw [hstep]
    refine ⟨ih1, ?_⟩
    intro x hx
    rcases List.mem_cons.mp hx with rfl | hx2
    · exact register_preserves_registered _ _
        (by rw [isRegistered_append_single]; simp)
    · exact ih2 x hx2

/-- Witness for the amended C10 at a concrete registry and list. -/
theorem register_not_atomic_amended_witness :
    (Moderator.register [(1, unitPolicyRefuse)] [2, 3, 1]
      (fun _ => unitPolicyRefuse)).2 = some ModErr.alreadyModerated ∧
    isRegistered 2 (Moderator.register [(1, unitPolicyRefuse)] [2, 3, 1]
      (fun _ => unitPolicyRefuse)).1 = true ∧
    isRegistered 3 (Moderator.register [(1, unitPolicyRefuse)] [2, 3, 1]
      (fun _ => unitPolicyRefuse)).1 = true := by
  have h := register_not_atomic_amended [2, 3] [(1, unitPolicyRefuse)] [] 1
    (fun _ => unitPolicyRefuse) rfl (by decide) (by decide)
  exact ⟨h.1, h.2 2 (by decide), h.2 3 (by decide)⟩

/-! ## C8: allow / comments_open agreement and characterisation -/

/-- Moderation options with `auto_close_field` set and `close_after`
set to `0` — both "set" in the claim's sense, but `0` is falsy in the
code's `if self.auto_close_field and self.close_after:` test. -/
def opts0 : ModOptions :=
  { akismet := false
    auto_close_field := some ("d")
    auto_moderate_field := none
    close_after := some 0
    email_notification := false
    enable_field := none
    moderate_after := none
    moderate_field := none }

/-- Content object whose date field equals the current time. -/
def obj0 : ContentObj :=
  { boolField := fun _ => true
    dateField := fun _ => 0 }

/-- C8 counterexample. With `close_after = 0` and the date field equal
to the current time, the claim's condition holds (both options are set
and 0 ≥ close_after days have elapsed), so the claim demands `false` —
but `allow` and `comments_open` both return `true`, because Python
treats `close_after = 0` as falsy and skips the auto-close check. -/
theorem allow_comments_open_claim_counterexample :
    specClaimClosed opts0 0 obj0 = true ∧
    CommentModerator.allow opts0 0 () obj0 = Except.ok true ∧
    CommentModerator.comments_open opts0 0 obj0 = Except.ok true :=
  ⟨rfl, rfl, rfl⟩

/-- C8 amended. `allow` ignores its comment argument and returns
exactly what `comments_open` returns, `ValueError` included; the common
result is `false` exactly when a truthy `enable_field` names a field
that is false on the object, or truthy `auto_close_field` and nonzero
`close_after` are set, the date field is not in the future, and at
least `close_after` days have elapsed; it is a `ValueError` exactly
when the enable check does not fire, the auto-close check is active and
the date field is in the future; otherwise it is `true`. -/
theorem allow_comments_open_equiv {γ : Type} (opts : ModOptions) (now : Int)
    (c : γ) (obj : ContentObj) :
    CommentModerator.allow opts now c obj = CommentModerator.comments_open opts now obj ∧
    (CommentModerator.allow opts now c obj = Except.ok false ↔
      (optTruthyStr opts.enable_field = true ∧
        obj.boolField (orBlank opts.enable_field) = false) ∨
      (optTruthyStr opts.auto_close_field = true ∧
        optTruthyInt opts.close_after = true ∧
        obj.dateField (orBlank opts.auto_close_field) ≤ now ∧
        opts.close_after.getD 0 ≤ now - obj.dateField (orBlank opts.auto_close_field))) ∧
    (CommentModerator.allow opts now c obj = Except.error () ↔
      ¬(optTruthyStr opts.enable_field = true ∧
          obj.boolField (orBlank opts.enable_field) = false) ∧
      optTruthyStr opts.auto_close_field = true ∧
      optTruthyInt opts.close_after = true ∧
      now < obj.dateField (orBlank opts.auto_close_field)) := by
  refine ⟨rfl, ?_, ?_⟩
  · unfold CommentModerator.allow
    split_ifs with h1 h2 h3 h4
    · simp only [Bool.and_eq_true, Bool.not_eq_true'] at h1
      exact iff_of_true rfl (Or.inl ⟨h1.1, h1.2⟩)
    · simp only [Bool.and_eq_true, Bool.not_eq_true'] at h1 h2
      constructor
      · intro h; exact h.elim
      · rintro (h | ⟨ha, hb, hc, hd⟩)
        · exact absurd h h1
        · exfalso; omega
    · simp only [Bool.and_eq_true, Bool.not_eq_true'] at h2
      exact iff_of_true rfl (Or.inr ⟨h2.1, h2.2, by omega, h4⟩)
    · simp only [Bool.and_eq_true, Bool.not_eq_true'] at h1 h2
      constructor
      · intro h; exact Bool.noConfusion (Except.ok.inj h)
      · rintro (h | ⟨ha, hb, hc, hd⟩)
        · exact absurd h h1
        · exact absurd hd h4
    · simp only [Bool.and_eq_true, Bool.not_eq_true'] at h1 h2
      constructor
      · intro h; exact Bool.noConfusion (Except.ok.inj h)
      · rintro (h | ⟨ha, hb, hc, hd⟩)
        · exact absurd h h1
        · exact absurd ⟨ha, hb⟩ h2
  · unfold CommentModerator.allow
    split_ifs with h1 h2 h3 h4
    · simp only [Bool.and_eq_true, Bool.not_eq_true'] at h1
      constructor
      · intro h; exact h.elim
      · rintro ⟨hn, _, _, _⟩; exact absurd ⟨h1.1, h1.2⟩ hn
    · simp only [Bool.and_eq_true, Bool.not_eq_true'] at h1 h2
      exact iff_of_true rfl ⟨h1, h2.1, h2.2, h3⟩
    · constructor
      · intro h; exact h.elim
      · rintro ⟨hn, ha, hb, hc⟩; exact absurd hc h3
    · constructor
      · intro h; exact h.elim
      · rintro ⟨hn, ha, hb, hc⟩; exact absurd hc h3
    · simp only [Bool.and_eq_true, Bool.not_eq_true'] at h1 h2
      constructor
      · intro h; exact h.elim
      · rintro ⟨hn, ha, hb, hc⟩; exact absurd ⟨ha, hb⟩ h2

/-! ## C2 and C3: the delete_spam_comments command -/

/-- C2. With `dry_run` false, the command keeps exactly the comments
that are public or not older than `now - age` days — i.e. it deletes
exactly the non-public comments older than the cutoff — and the printed
count is the number of comments matching the spam condition. -/
theorem delete_spam_exact (now age : Int) (verbosity : Nat) (store : List SpamComment) :
    (∀ c : SpamComment,
      c ∈ (delete_spam_comments now age false verbosity store).1 ↔
        c ∈ store ∧ ¬(c.is_public = false ∧ c.submit_date < now - age * 86400)) ∧
    (delete_spam_comments now age false verbosity store).2 =
      store.countP (fun c => !c.is_public && decide (c.submit_date < now - age * 86400)) := by
  constructor
  · intro c
    simp only [delete_spam_comments, if_neg (Bool.false_ne_true), List.mem_filter]
    constructor
    · rintro ⟨hc, hf⟩
      refine ⟨hc, ?_⟩
      rintro ⟨hp, hd⟩
      simp [isSpam, hp, hd] at hf
    · rintro ⟨hc, hn⟩
      refine ⟨hc, ?_⟩
      cases hp : c.is_public with
      | true => simp [isSpam, hp]
      | false =>
        cases hd : decide (c.submit_date < now - age * 86400) with
        | true => exact absurd ⟨hp, of_decide_eq_true hd⟩ hn
        | false => simp [isSpam, hp, of_decide_eq_false hd]
  · simp only [delete_spam_comments, if_neg (Bool.false_ne_true)]
    rw [List.countP_eq_length_filter]
    rfl

/-- C3. A non-public comment older than the cutoff is counted but the
stored comments are unchanged when `dry_run` is true, and it is deleted
when `dry_run` is false. -/
theorem delete_spam_dry_run_frame (now age : Int) (verbosity : Nat)
    (store : List SpamComment) (c : SpamComment)
    (hc : c ∈ store) (hp : c.is_public = false)
    (hd : c.submit_date < now - age * 86400) :
    (delete_spam_comments now age true verbosity store).1 = store ∧
    (delete_spam_comments now age true verbosity store).2 =
      (store.filter (isSpam now age)).length ∧
    c ∈ store.filter (isSpam now age) ∧
    c ∉ (delete_spam_comments now age false verbosity store).1 := by
  refine ⟨rfl, rfl, ?_, ?_⟩
  · exact List.mem_filter.mpr ⟨hc, by simp [isSpam, hp, hd]⟩
  · intro hmem
    simp only [delete_spam_comments, if_neg (Bool.false_ne_true)] at hmem
    have h2 := (List.mem_filter.mp hmem).2
    simp [isSpam, hp, hd] at h2

/-- Non-public comment far in the past. -/
def spamC0 : SpamComment :=
  { id := 1
    is_public := false
    submit_date := -100000000 }

/-- Witness for C3 at a concrete store and cutoff. -/
theorem delete_spam_dry_run_frame_witness :
    (delete_spam_comments 0 1 true 1 [spamC0]).1 = [spamC0] ∧
    (delete_spam_comments 0 1 true 1 [spamC0]).2 = ([spamC0].filter (isSpam 0 1)).length ∧
    spamC0 ∈ [spamC0].filter (isSpam 0 1) ∧
    spamC0 ∉ (delete_spam_comments 0 1 false 1 [spamC0]).1 :=
  delete_spam_dry_run_frame 0 1 1 [spamC0] spamC0 (List.mem_singleton.mpr rfl) rfl
    (by decide)

/-! ## C7: most_commented ranking -/

/-- C7. `most_commented` returns at most `num` objects, drawn from the
manager's objects, in descending order of their public-comment count in
the selected comment table. -/
theorem most_commented_ranking (num : Nat) (free : Bool) (ctype : Nat)
    (objs : List RankedObj) (freeTable regTable : List RankComment) :
    (most_commented num free ctype objs freeTable regTable).length ≤ num ∧
    (most_commented num free ctype objs freeTable regTable).Pairwise
      (fun a b => commentCountFor (if free then freeTable else regTable) ctype b ≤
        commentCountFor (if free then freeTable else regTable) ctype a) ∧
    ∀ o ∈ most_commented num free ctype objs freeTable regTable, o ∈ objs := by
  unfold most_commented
  refine ⟨List.length_take_le num _, ?_, ?_⟩
  · haveI : IsTotal RankedObj (fun a b =>
        commentCountFor (if free then freeTable else regTable) ctype b ≤
        commentCountFor (if free then freeTable else regTable) ctype a) :=
      ⟨fun a b => Nat.le_total _ _⟩
    haveI : IsTrans RankedObj (fun a b =>
        commentCountFor (if free then freeTable else regTable) ctype b ≤
        commentCountFor (if free then freeTable else regTable) ctype a) :=
      ⟨fun _ _ _ h1 h2 => Nat.le_trans h2 h1⟩
    exact (List.sorted_insertionSort _ _).sublist (List.take_sublist num _)
  · intro o ho
    exact (List.perm_insertionSort _ objs).mem_iff.mp ((List.take_subset num _) ho)

/-! ## C5: template-tag error handling -/

/-- Double-negation elimination on a boolean hypothesis from `split_ifs`. -/
theorem bool_true_of_not_not {b : Bool} (h : ((!b) = true) -> False) : b = true := by
  cases b
  · exact absurd rfl h
  · rfl

/-- A boolean that is not true is false. -/
theorem bool_false_of_not {b : Bool} (h : (b = true) -> False) : b = false := by
  cases b
  · rfl
  · exact absurd rfl h

/-- Malformed-invocation condition from the claim, for the tags taking
5 or 6 arguments (list tags): wrong number of tokens, second token not
`for`, content-type token not of the form `package.module`, fourth
token not `as`, or an invalid final `reversed` token. Stated from the
specification. -/
def specMalformedSixSeven (tokens : List String) : Bool :=
  !(tokens.length == 6 || tokens.length == 7) ||
  (tokens.getD 1 "") != "for" ||
  (splitOnDot (tokens.getD 2 "")).length != 2 ||
  (tokens.getD 4 "") != "as" ||
  (tokens.length == 7 && (tokens.getD 6 "") != "reversed")

/-- Malformed-invocation condition from the claim for the count tags,
which take exactly 5 arguments and no `reversed` token. Stated from the
specification. -/
def specMalformedSix (tokens : List String) : Bool :=
  !(tokens.length == 6) ||
  (tokens.getD 1 "") != "for" ||
  (splitOnDot (tokens.getD 2 "")).length != 2 ||
  (tokens.getD 4 "") != "as"

set_option maxHeartbeats 1000000 in
/-- C5. Malformed invocations are rejected by all three parsers (every
rejection is raised as a `TemplateSyntaxError`); and a well-formed
invocation whose hard-coded object id matches no object produces the
object-does-not-exist error. -/
theorem tag_parse_error_handling (env : TagEnv) (free : Bool) (tokens : List String) :
    (specMalformedSixSeven tokens = true →
      (doGetCommentList env free tokens).isOk = false ∧
      (doPublicCommentList env free tokens).isOk = false) ∧
    (specMalformedSix tokens = true →
      (doPublicCommentCount env free tokens).isOk = false) ∧
    ((tokens.length == 6 || tokens.length == 7) = true →
      (tokens.getD 1 "") = "for" →
      (splitOnDot (tokens.getD 2 "")).length = 2 →
      isAllDigits (tokens.getD 3 "") = true →
      env.objectExists ((splitOnDot (tokens.getD 2 "")).getD 0 "")
        ((splitOnDot (tokens.getD 2 "")).getD 1 "") (tokens.getD 3 "") = false →
      (env.ctypeExists ((splitOnDot (tokens.getD 2 "")).getD 0 "")
          ((splitOnDot (tokens.getD 2 "")).getD 1 "") = true →
        doGetCommentList env free tokens = Except.error TagErr.objectDoesNotExist) ∧
      (env.modelExists ((splitOnDot (tokens.getD 2 "")).getD 0 "")
          ((splitOnDot (tokens.getD 2 "")).getD 1 "") = true →
        doPublicCommentList env free tokens = Except.error TagErr.objectDoesNotExist ∧
        ((tokens.length == 6) = true →
          doPublicCommentCount env free tokens = Except.error TagErr.objectDoesNotExist))) := by
  refine ⟨?_, ?_, ?_⟩
  · intro hm
    constructor
    · unfold doGetCommentList
      split_ifs with h1 h2 h3 h4 h5 h6 h7
      all_goals try rfl
      all_goals
        (exfalso;
         unfold specMalformedSixSeven at hm;
         rw [bool_true_of_not_not h1, bool_false_of_not h2, bool_false_of_not h3,
           bool_false_of_not h6, bool_false_of_not h7] at hm;
         simp at hm)
    · unfold doPublicCommentList
      split_ifs with h1 h2 h3 h4 h5 h6 h7
      all_goals try rfl
      all_goals
        (exfalso;
         unfold specMalformedSixSeven at hm;
         rw [bool_true_of_not_not h1, bool_false_of_not h2, bool_false_of_not h3,
           bool_false_of_not h6, bool_false_of_not h7] at hm;
         simp at hm)
  · intro hm
    unfold doPublicCommentCount
    split_ifs with h1 h2 h3 h4 h5 h6
    all_goals try rfl
    all_goals
      (exfalso;
       unfold specMalformedSix at hm;
       rw [bool_true_of_not_not h1, bool_false_of_not h2, bool_false_of_not h3,
         bool_false_of_not h6] at hm;
       simp at hm)
  · intro h67 hfor hparts hdig hobj
    simp only [List.getD_eq_getElem?_getD] at h67 hfor hparts hdig hobj
    simp [hparts] at hobj
    refine ⟨?_, ?_⟩
    · intro hct
      simp only [List.getD_eq_getElem?_getD] at hct
      simp [hparts] at hct
      simp [doGetCommentList, h67, hfor, hparts, hct, hdig, hobj]
    · intro hmd
      simp only [List.getD_eq_getElem?_getD] at hmd
      simp [hparts] at hmd
      refine ⟨?_, ?_⟩
      · simp [doPublicCommentList, h67, hfor, hparts, hmd, hdig, hobj]
      · intro h6
        simp [doPublicCommentCount, h6, hfor, hparts, hmd, hdig, hobj]

/-- Environment in which every content type and model resolves but no
object exists. -/
def tagEnvNoObject : TagEnv :=
  { ctypeExists := fun _ _ => true
    modelExists := fun _ _ => true
    objectExists := fun _ _ _ => false }

/-- Witness for C5: a well-formed invocation naming object 23, which
does not exist, is rejected with the object-does-not-exist error. -/
theorem tag_parse_error_handling_witness :
    doGetCommentList tagEnvNoObject false
      ["get_comment_list", "for", "app.mod", "23", "as", "cl"] =
      Except.error TagErr.objectDoesNotExist :=
  (((tag_parse_error_handling tagEnvNoObject false
      ["get_comment_list", "for", "app.mod", "23", "as", "cl"]).2.2
    rfl rfl rfl rfl rfl).1) rfl

/-! ## C6: the public comment count tag -/

/-- Environment in which every content type, model and object
resolves. -/
def tagEnvAllObjects : TagEnv :=
  { ctypeExists := fun _ _ => true
    modelExists := fun _ _ => true
    objectExists := fun _ _ _ => true }

/-- Node produced by parsing a hard-coded-id invocation of the public
comment count tag. -/
def hardCodedCountNode : CommentCountNode :=
  { package := "app"
    module := "mod"
    context_var_name := none
    obj_id := some ("23")
    var_name := "c"
    free := false }

/-- Node produced by parsing a context-variable invocation of the
public comment count tag. -/
def varCountNode : CommentCountNode :=
  { package := "app"
    module := "mod"
    context_var_name := some ("oid")
    obj_id := none
    var_name := "c"
    free := false }

/-- Registered-comment table with two comments on object 23 (one of
them non-public) and one public comment on object 24. -/
def demoTable : List TplComment :=
  [ { object_id := "23", app_label := "app", model_name := "mod", site_id := 1, is_public := true }
  , { object_id := "23", app_label := "app", model_name := "mod", site_id := 1, is_public := false }
  , { object_id := "24", app_label := "app", model_name := "mod", site_id := 1, is_public := true } ]

/-- C6. The parser accepts a hard-coded object id for the public
comment count tag and stores it in `obj_id` of the node — but rendering
that node raises `UnboundLocalError` instead of storing the count,
because `PublicCommentCountNode.render` reads the local `object_id`
that is only assigned in the context-variable branch (the parent
`CommentCountNode.render`, by contrast, renders the same node fine).
With a context variable the public count is computed and stored (here:
1 public comment among the matching ones) with no output text. -/
theorem public_comment_count_hardcoded_id_bug :
    doPublicCommentCount tagEnvAllObjects false
      ["get_public_comment_count", "for", "app.mod", "23", "as", "c"] =
      Except.ok hardCodedCountNode ∧
    publicCommentCountRender [] demoTable 1 hardCodedCountNode [] =
      Except.error RenderErr.unboundLocal ∧
    commentCountRender [] demoTable 1 hardCodedCountNode [] =
      Except.ok ([("c", "2")], "") ∧
    publicCommentCountRender [] demoTable 1 varCountNode [("oid", "23")] =
      Except.ok ([("c", "1"), ("oid", "23")], "") :=
  ⟨rfl, rfl, rfl, rfl⟩
